import Mathlib

/-!
Shallow embedding of `src/adaptive_market_maker.py` (class `AdaptiveMarketMaker`),
a Hummingbot market-making strategy script. Python floats are modelled as exact
rationals; calls into the host runtime (candle feed, balances, prices, budget
checker) are modelled as `Except`-valued fields of a `Host` record, an exception
raised by a host call being an `Except.error`. The strategy's mutable attribute
state is threaded explicitly where a method assigns to `self`.
-/

namespace AdaptiveMM

/-- An exception raised by a host call or by the surrounding computation. -/
inductive Err where
  | exn : Err
deriving DecidableEq, Repr

/-- Order side, mirroring `TradeType.BUY` / `TradeType.SELL`. -/
inductive TradeType where
  | buy : TradeType
  | sell : TradeType
deriving DecidableEq, Repr

/-- An order candidate as built in `create_proposal` (fields the model needs:
side, amount, price; `trading_pair`, `is_maker` and `order_type` are constants
in the source and carry no information in the claims). -/
structure OrderCandidate where
  side : TradeType
  amount : ℚ
  price : ℚ
deriving DecidableEq, Repr

/-- An externally visible action emitted by `on_tick`:
`cancelAll` models `self.cancel_all_orders()`, `place o` models
`self.place_order(...)` for one order candidate. -/
inductive Action where
  | cancelAll : Action
  | place : OrderCandidate → Action
deriving DecidableEq, Repr

/-- The candles dataframe as seen by `calculate_spreads` after
`get_candles_with_features`: whether it is empty, and the last value of the
`NATR_30` column when that column is present (`none` when absent). -/
structure CandlesDF where
  isEmpty : Bool
  natrLast : Option ℚ
deriving DecidableEq, Repr

/-- The host runtime surface the script calls into. Each accessor may raise
(`Except.error`); `adjustToBudget` models
`budget_checker.adjust_candidates(proposal, all_or_none=True)`. -/
structure Host where
  candles : Except Err CandlesDF
  baseBalance : Except Err ℚ
  priceByType : Except Err ℚ
  quoteBalance : Except Err ℚ
  bestBid : Except Err ℚ
  bestAsk : Except Err ℚ
  adjustToBudget : List OrderCandidate → List OrderCandidate

/-- The strategy object's attributes used by the modelled methods, with the
class-level defaults from the source (lines 23-38). -/
structure Strategy where
  bid_spread : ℚ := 1/1000
  ask_spread : ℚ := 1/1000
  order_refresh_time : ℤ := 15
  order_amount : ℚ := 1
  create_timestamp : ℤ := 0
  risk_aversion : ℚ := 9/10
  min_spread : ℚ := 1/1000
deriving DecidableEq, Repr

/-- The strategy with all attributes at their class-level defaults. -/
def defaultStrategy : Strategy := {}

/-- Line 107: `base_spread = max(self.min_spread, volatility * 5)`. -/
def base_spread_of (min_spread volatility : ℚ) : ℚ :=
  max min_spread (volatility * 5)

/-- Lines 104-117 of `calculate_spreads`, before the per-side `min_spread`
flooring: the raw `(bid, ask)` products. `inventory_deviation` is
`inventory_frac - 0.5`; the positive branch uses it directly, the other branch
replaces it by its absolute value (line 115). -/
def raw_spreads (min_spread volatility inventory_frac : ℚ) : ℚ × ℚ :=
  let target_frac : ℚ := 1/2
  let inventory_deviation := inventory_frac - target_frac
  let base_spread := base_spread_of min_spread volatility
  if inventory_deviation > 0 then
    (base_spread * (1 - inventory_deviation * (1/2)),
     base_spread * (1 + inventory_deviation * (1/2)))
  else
    let d := |inventory_deviation|
    (base_spread * (1 + d * (1/2)),
     base_spread * (1 - d * (1/2)))

/-- Lines 104-117 of `calculate_spreads` including the per-side flooring:
both raw products are floored at `min_spread` by the `max(...)` calls on
lines 111-112 and 116-117. -/
def spread_core (min_spread volatility inventory_frac : ℚ) : ℚ × ℚ :=
  let raw := raw_spreads min_spread volatility inventory_frac
  (max min_spread raw.1, max min_spread raw.2)

/-- The body of the `try:` block of `calculate_spreads` (lines 81-123):
fetch the candles dataframe, return the configured defaults when it is empty,
read the volatility (`NATR_30` last value, or `0.001` when the column is
missing), fetch balances and the mid price, form the inventory fraction, and
compute the floored spreads. Any raising host call short-circuits to
`Except.error`. -/
def calculate_spreads_run (s : Strategy) (h : Host) : Except Err (ℚ × ℚ) :=
  h.candles.bind fun candles_df =>
    if candles_df.isEmpty then
      Except.ok (s.bid_spread, s.ask_spread)
    else
      let volatility : ℚ :=
        match candles_df.natrLast with
        | some v => v
        | none => 1/1000
      h.baseBalance.bind fun base_balance =>
      h.priceByType.bind fun mid_price =>
      h.quoteBalance.bind fun quote_asset_balance =>
        let quote_balance := mid_price * quote_asset_balance
        let total_value := base_balance + quote_balance
        let inventory_frac :=
          if total_value > 0 then base_balance / total_value else 1/2
        Except.ok (spread_core s.min_spread volatility inventory_frac)

/-- The whole `calculate_spreads` method with the strategy state threaded
explicitly: the method assigns to no attribute of `self`, so the returned
state is the input state; the `except` handler (lines 125-127) replaces any
error by the configured default pair. -/
def calculate_spreads_full (s : Strategy) (h : Host) : Strategy × (ℚ × ℚ) :=
  (s,
   match calculate_spreads_run s h with
   | Except.ok p => p
   | Except.error _ => (s.bid_spread, s.ask_spread))

/-- The value returned by `calculate_spreads`. -/
def calculate_spreads (s : Strategy) (h : Host) : ℚ × ℚ :=
  (calculate_spreads_full s h).2

/-- `create_proposal` (lines 129-152): price the buy at
`ref_price * (1 - bid_spread)` and the sell at `ref_price * (1 + ask_spread)`,
then clamp with `min(..., best_bid)` and `max(..., best_ask)`; errors from the
direct price fetches propagate (there is no try/except here), while errors
inside `calculate_spreads` are already absorbed by its own handler. -/
def create_proposal (s : Strategy) (h : Host) : Except Err (List OrderCandidate) :=
  h.priceByType.bind fun ref_price =>
    let sp := calculate_spreads s h
    let buy_price := ref_price * (1 - sp.1)
    let sell_price := ref_price * (1 + sp.2)
    h.bestBid.bind fun best_bid =>
    h.bestAsk.bind fun best_ask =>
      let buy_price2 := min buy_price best_bid
      let sell_price2 := max sell_price best_ask
      Except.ok
        [{ side := TradeType.buy, amount := s.order_amount, price := buy_price2 },
         { side := TradeType.sell, amount := s.order_amount, price := sell_price2 }]

/-- `on_tick` (lines 58-65): when `create_timestamp <= current_timestamp`,
cancel all orders, build the proposal, adjust it to budget and place it, then
set `create_timestamp = order_refresh_time + current_timestamp`; otherwise do
nothing. The emitted actions are returned alongside the updated state. -/
def on_tick (s : Strategy) (h : Host) (now : ℤ) : Except Err (Strategy × List Action) :=
  if s.create_timestamp ≤ now then
    (create_proposal s h).bind fun proposal =>
      let proposal_adjusted := h.adjustToBudget proposal
      Except.ok
        ({ s with create_timestamp := s.order_refresh_time + now },
         Action.cancelAll :: proposal_adjusted.map Action.place)
  else
    Except.ok (s, [])

/-- Modelled from the spec: the reference spread algorithm exactly as section
4.1 of the spec words it, with `|deviation|` in both branches,
`volatility_multiplier = 5` and `skew_factor = 0.5`. -/
def spec_spreads (min_spread volatility inventory_frac : ℚ) : ℚ × ℚ :=
  let base_spread := max min_spread (volatility * 5)
  let deviation := inventory_frac - 1/2
  if deviation > 0 then
    (max min_spread (base_spread * (1 - |deviation| * (1/2))),
     max min_spread (base_spread * (1 + |deviation| * (1/2))))
  else
    (max min_spread (base_spread * (1 + |deviation| * (1/2))),
     max min_spread (base_spread * (1 - |deviation| * (1/2))))

/-- A concrete host realising the spec's worked example: non-empty candles
with `NATR_30` last value `0.002`, balances giving inventory fraction `0.7`. -/
def specExampleHost : Host :=
  { candles := Except.ok { isEmpty := false, natrLast := some (1/500) }
    baseBalance := Except.ok 7
    priceByType := Except.ok 1
    quoteBalance := Except.ok 3
    bestBid := Except.ok (99/100)
    bestAsk := Except.ok (101/100)
    adjustToBudget := fun p => p }

/-- A concrete host on which every call raises. -/
def failHost : Host :=
  { candles := Except.error Err.exn
    baseBalance := Except.error Err.exn
    priceByType := Except.error Err.exn
    quoteBalance := Except.error Err.exn
    bestBid := Except.error Err.exn
    bestAsk := Except.error Err.exn
    adjustToBudget := fun p => p }

/-- A concrete host whose candles dataframe is non-empty but lacks the
`NATR_30` column. -/
def noNatrHost : Host :=
  { candles := Except.ok { isEmpty := false, natrLast := none }
    baseBalance := Except.ok 7
    priceByType := Except.ok 1
    quoteBalance := Except.ok 3
    bestBid := Except.ok (99/100)
    bestAsk := Except.ok (101/100)
    adjustToBudget := fun p => p }

/-- When the inventory fraction is at least `1/2`, the raw spreads come from the
long-position branch shape (with deviation `r - 1/2 ≥ 0`). -/
lemma raw_spreads_of_ge (ms vol r : ℚ) (h : 1/2 ≤ r) :
    raw_spreads ms vol r =
      (base_spread_of ms vol * (1 - (r - 1/2) * (1/2)),
       base_spread_of ms vol * (1 + (r - 1/2) * (1/2))) := by
  simp only [raw_spreads]
  split
  · rfl
  · next hnpos =>
    have hz : r - 1/2 = 0 := le_antisymm (not_lt.mp hnpos) (by linarith)
    rw [hz]
    norm_num

/-- When the inventory fraction is at most `1/2`, the raw spreads come from the
short-position branch, with `|deviation| = 1/2 - r`. -/
lemma raw_spreads_of_le (ms vol r : ℚ) (h : r ≤ 1/2) :
    raw_spreads ms vol r =
      (base_spread_of ms vol * (1 + (1/2 - r) * (1/2)),
       base_spread_of ms vol * (1 - (1/2 - r) * (1/2))) := by
  simp only [raw_spreads]
  split
  · next hpos => exact absurd hpos (by linarith)
  · have habs : |r - 1/2| = 1/2 - r := by
      rw [abs_of_nonpos (by linarith)]; ring
    rw [habs]

/-- C1: for every volatility ≥ 0, inventory fraction in [0,1] and min_spread > 0,
the spread computation of `calculate_spreads` (lines 104-117) returns exactly the
reference algorithm's result as the spec words it, and at inventory fraction 1/2
both spreads equal `max min_spread (volatility * 5)`. -/
theorem spread_core_matches_spec (ms vol r : ℚ)
    (hvol : 0 ≤ vol) (hr0 : 0 ≤ r) (hr1 : r ≤ 1) (hms : 0 < ms) :
    spread_core ms vol r = spec_spreads ms vol r ∧
    spread_core ms vol (1/2) = (max ms (vol * 5), max ms (vol * 5)) := by
  constructor
  · rcases le_total r (1/2) with hle | hge
    · simp only [spread_core]
      rw [raw_spreads_of_le ms vol r hle]
      simp only [spec_spreads]
      split
      · next hpos => exact absurd hpos (by linarith)
      · have habs : |r - 1/2| = 1/2 - r := by
          rw [abs_of_nonpos (by linarith)]; ring
        rw [habs]
        rfl
    · simp only [spread_core]
      rw [raw_spreads_of_ge ms vol r hge]
      simp only [spec_spreads]
      split
      · next hpos =>
        rw [abs_of_pos hpos]
        rfl
      · next hnpos =>
        have hz : r - 1/2 = 0 := le_antisymm (not_lt.mp hnpos) (by linarith)
        rw [hz]
        simp only [base_spread_of]
        norm_num
  · simp only [spread_core]
    rw [raw_spreads_of_ge ms vol (1/2) (le_refl _)]
    simp only [base_spread_of]
    have hmax : max ms (max ms (vol * 5)) = max ms (vol * 5) := by
      rw [← max_assoc, max_self]
    norm_num [hmax]

/-- Witness for C1 at the spec's worked example
(volatility 0.002, inventory fraction 0.7, min_spread 0.001). -/
theorem spread_core_matches_spec_witness :
    spread_core (1/1000) (1/500) (7/10) = spec_spreads (1/1000) (1/500) (7/10) ∧
    spread_core (1/1000) (1/500) (1/2) =
      (max (1/1000) ((1/500) * 5), max (1/1000) ((1/500) * 5)) :=
  spread_core_matches_spec (1/1000) (1/500) (7/10)
    (by norm_num) (by norm_num) (by norm_num) (by norm_num)

/-- C2: both spreads produced by the non-fallback computation of
`calculate_spreads` are at least `min_spread`, for all inputs. -/
theorem spread_core_ge_min_spread (ms vol r : ℚ) :
    ms ≤ (spread_core ms vol r).1 ∧ ms ≤ (spread_core ms vol r).2 := by
  unfold spread_core
  exact ⟨le_max_left _ _, le_max_left _ _⟩

/-- C3: whenever a host input is unavailable or a host call raises (empty candle
data, or an exception from the candle feed, the balance reads or the price read),
`calculate_spreads` returns the statically configured default pair unchanged. -/
theorem calculate_spreads_fallback_on_error (s : Strategy) (h : Host)
    (hfail :
      (∃ e, h.candles = Except.error e) ∨
      ∃ df, h.candles = Except.ok df ∧
        (df.isEmpty = true ∨
         (∃ e, h.baseBalance = Except.error e) ∨
         (∃ e, h.priceByType = Except.error e) ∨
         (∃ e, h.quoteBalance = Except.error e))) :
    calculate_spreads s h = (s.bid_spread, s.ask_spread) := by
  unfold calculate_spreads calculate_spreads_full calculate_spreads_run
  rcases hfail with ⟨e, hc⟩ | ⟨df, hc, hrest⟩
  · rw [hc]; rfl
  · rw [hc]
    by_cases hemp : df.isEmpty
    · simp [Except.bind, hemp]
    · rcases hrest with hemp2 | ⟨e, hb⟩ | ⟨e, hp⟩ | ⟨e, hq⟩
      · exact absurd hemp2 hemp
      · simp [Except.bind, hemp, hb]
      · cases hbb : h.baseBalance with
        | error e2 => simp [Except.bind, hemp, hbb]
        | ok bb => simp [Except.bind, hemp, hbb, hp]
      · cases hbb : h.baseBalance with
        | error e2 => simp [Except.bind, hemp, hbb]
        | ok bb =>
          cases hpp : h.priceByType with
          | error e3 => simp [Except.bind, hemp, hbb, hpp]
          | ok pp => simp [Except.bind, hemp, hbb, hpp, hq]

/-- Witness for C3 on a host where every call raises. -/
theorem calculate_spreads_fallback_witness :
    calculate_spreads defaultStrategy failHost =
      (defaultStrategy.bid_spread, defaultStrategy.ask_spread) :=
  calculate_spreads_fallback_on_error defaultStrategy failHost (Or.inl ⟨Err.exn, rfl⟩)

/-- C4: `create_proposal` prices the buy order at `min (P * (1 - b)) B` and the
sell order at `max (P * (1 + a)) A`, so the submitted buy price never exceeds the
best bid and the submitted sell price is never below the best ask. -/
theorem create_proposal_no_cross (s : Strategy) (h : Host) (P B A b a : ℚ)
    (hP : h.priceByType = Except.ok P) (hB : h.bestBid = Except.ok B)
    (hA : h.bestAsk = Except.ok A) (hsp : calculate_spreads s h = (b, a)) :
    create_proposal s h = Except.ok
      [{ side := TradeType.buy, amount := s.order_amount, price := min (P * (1 - b)) B },
       { side := TradeType.sell, amount := s.order_amount, price := max (P * (1 + a)) A }] ∧
    min (P * (1 - b)) B ≤ B ∧ A ≤ max (P * (1 + a)) A := by
  refine ⟨?_, min_le_right _ _, le_max_right _ _⟩
  unfold create_proposal
  rw [hP, hB, hA, hsp]
  rfl

/-- Witness for C4 on the spec's worked example host. -/
theorem create_proposal_no_cross_witness :
    create_proposal defaultStrategy specExampleHost = Except.ok
      [{ side := TradeType.buy, amount := defaultStrategy.order_amount,
         price := min ((1:ℚ) * (1 - 9/1000)) (99/100) },
       { side := TradeType.sell, amount := defaultStrategy.order_amount,
         price := max ((1:ℚ) * (1 + 11/1000)) (101/100) }] ∧
    min ((1:ℚ) * (1 - 9/1000)) (99/100) ≤ 99/100 ∧
    (101/100 : ℚ) ≤ max ((1:ℚ) * (1 + 11/1000)) (101/100) :=
  create_proposal_no_cross defaultStrategy specExampleHost 1 (99/100) (101/100)
    (9/1000) (11/1000) rfl rfl rfl
    (by norm_num [calculate_spreads, calculate_spreads_full, calculate_spreads_run,
      specExampleHost, defaultStrategy, Except.bind, spread_core, raw_spreads,
      base_spread_of])

/-- C5: for fixed volatility ≥ 0 and min_spread > 0, as the inventory fraction
increases above 1/2 the ask spread is non-decreasing and the bid spread is
non-increasing. -/
theorem spread_monotone_above_half (ms vol r1 r2 : ℚ)
    (hms : 0 < ms) (hvol : 0 ≤ vol) (h1 : 1/2 ≤ r1) (h12 : r1 ≤ r2) (h2 : r2 ≤ 1) :
    (spread_core ms vol r1).2 ≤ (spread_core ms vol r2).2 ∧
    (spread_core ms vol r2).1 ≤ (spread_core ms vol r1).1 := by
  have hbase : (0:ℚ) ≤ base_spread_of ms vol :=
    le_trans hms.le (le_max_left _ _)
  simp only [spread_core, raw_spreads_of_ge ms vol r1 h1,
    raw_spreads_of_ge ms vol r2 (le_trans h1 h12)]
  constructor
  · exact max_le_max le_rfl
      (mul_le_mul_of_nonneg_left (by linarith) hbase)
  · exact max_le_max le_rfl
      (mul_le_mul_of_nonneg_left (by linarith) hbase)

/-- Witness for C5 at inventory fractions 0.6 and 0.7. -/
theorem spread_monotone_above_half_witness :
    (spread_core (1/1000) (1/500) (3/5)).2 ≤ (spread_core (1/1000) (1/500) (7/10)).2 ∧
    (spread_core (1/1000) (1/500) (7/10)).1 ≤ (spread_core (1/1000) (1/500) (3/5)).1 :=
  spread_monotone_above_half (1/1000) (1/500) (3/5) (7/10)
    (by norm_num) (by norm_num) (by norm_num) (by norm_num) (by norm_num)

/-- C6: before the per-side flooring, the spread pair at inventory fraction
`1/2 + d` is the bid/ask swap of the pair at `1/2 - d`, for every d in [0, 1/2]. -/
theorem raw_spreads_mirror_symmetry (ms vol d : ℚ)
    (hms : 0 < ms) (hvol : 0 ≤ vol) (hd0 : 0 ≤ d) (hdh : d ≤ 1/2) :
    raw_spreads ms vol (1/2 + d) =
      ((raw_spreads ms vol (1/2 - d)).2, (raw_spreads ms vol (1/2 - d)).1) := by
  rw [raw_spreads_of_ge ms vol (1/2 + d) (by linarith),
    raw_spreads_of_le ms vol (1/2 - d) (by linarith)]
  simp only [Prod.fst, Prod.snd]
  rw [Prod.ext_iff]
  constructor <;> · simp only [Prod.fst, Prod.snd]; ring_nf

/-- Witness for C6 at d = 1/5. -/
theorem raw_spreads_mirror_symmetry_witness :
    raw_spreads (1/1000) (1/500) (1/2 + 1/5) =
      ((raw_spreads (1/1000) (1/500) (1/2 - 1/5)).2,
       (raw_spreads (1/1000) (1/500) (1/2 - 1/5)).1) :=
  raw_spreads_mirror_symmetry (1/1000) (1/500) (1/5)
    (by norm_num) (by norm_num) (by norm_num) (by norm_num)

/-- C7: `risk_aversion` is dead in the spread math — two runs of
`calculate_spreads` differing only in `risk_aversion`, on the same host inputs,
return the same pair. -/
theorem risk_aversion_is_dead (s : Strategy) (h : Host) (x : ℚ) :
    calculate_spreads { s with risk_aversion := x } h = calculate_spreads s h :=
  rfl

/-- With the class-configured `min_spread = 0.001` and substituted volatility
`0.001`, the base spread is `0.005`, so one side of the computed pair is always
at least `0.005`; the pair can therefore never equal the default `(0.001, 0.001)`. -/
lemma spread_core_default_ne (r : ℚ) :
    spread_core (1/1000) (1/1000) r ≠ (1/1000, 1/1000) := by
  have hbase : base_spread_of (1/1000) (1/1000) = 1/200 := by
    simp only [base_spread_of]
    rw [max_eq_right (by norm_num : (1:ℚ)/1000 ≤ 1/1000 * 5)]
    norm_num
  rcases le_total r (1/2) with hle | hge
  · intro heq
    have hfst := congrArg Prod.fst heq
    simp only [spread_core, raw_spreads_of_le (1/1000) (1/1000) r hle, hbase] at hfst
    have hprod : (1:ℚ)/200 ≤ 1/200 * (1 + (1/2 - r) * (1/2)) := by nlinarith
    have : (1:ℚ)/200 ≤ 1/1000 := by
      calc (1:ℚ)/200 ≤ 1/200 * (1 + (1/2 - r) * (1/2)) := hprod
        _ ≤ max (1/1000) (1/200 * (1 + (1/2 - r) * (1/2))) := le_max_right _ _
        _ = 1/1000 := hfst
    norm_num at this
  · intro heq
    have hsnd := congrArg Prod.snd heq
    simp only [spread_core, raw_spreads_of_ge (1/1000) (1/1000) r hge, hbase] at hsnd
    have hprod : (1:ℚ)/200 ≤ 1/200 * (1 + (r - 1/2) * (1/2)) := by nlinarith
    have : (1:ℚ)/200 ≤ 1/1000 := by
      calc (1:ℚ)/200 ≤ 1/200 * (1 + (r - 1/2) * (1/2)) := hprod
        _ ≤ max (1/1000) (1/200 * (1 + (r - 1/2) * (1/2))) := le_max_right _ _
        _ = 1/1000 := hsnd
    norm_num at this

/-- C8: on a non-empty candles dataframe lacking the `NATR_30` column (and with
the balance and price reads succeeding), `calculate_spreads` substitutes
volatility `0.001` and runs the normal computation on it, and the result is
never the configured default pair. -/
theorem missing_natr_uses_default_volatility (h : Host) (df : CandlesDF) (bb p qb : ℚ)
    (hc : h.candles = Except.ok df) (hne : df.isEmpty = false) (hnatr : df.natrLast = none)
    (hbb : h.baseBalance = Except.ok bb) (hp : h.priceByType = Except.ok p)
    (hqb : h.quoteBalance = Except.ok qb) :
    calculate_spreads defaultStrategy h =
      spread_core (1/1000) (1/1000)
        (if bb + p * qb > 0 then bb / (bb + p * qb) else 1/2) ∧
    calculate_spreads defaultStrategy h ≠
      (defaultStrategy.bid_spread, defaultStrategy.ask_spread) := by
  have heq : calculate_spreads defaultStrategy h =
      spread_core (1/1000) (1/1000)
        (if bb + p * qb > 0 then bb / (bb + p * qb) else 1/2) := by
    unfold calculate_spreads calculate_spreads_full calculate_spreads_run
    rw [hc]
    simp [Except.bind, hne, hnatr, hbb, hp, hqb]
    norm_num [defaultStrategy]
  refine ⟨heq, ?_⟩
  rw [heq]
  exact spread_core_default_ne _

/-- Witness for C8 on the host whose candles dataframe lacks the `NATR_30`
column. -/
theorem missing_natr_witness :
    calculate_spreads defaultStrategy noNatrHost =
      spread_core (1/1000) (1/1000)
        (if (7:ℚ) + 1 * 3 > 0 then 7 / (7 + 1 * 3) else 1/2) ∧
    calculate_spreads defaultStrategy noNatrHost ≠
      (defaultStrategy.bid_spread, defaultStrategy.ask_spread) :=
  missing_natr_uses_default_volatility noNatrHost
    { isEmpty := false, natrLast := none } 7 1 3 rfl rfl rfl rfl rfl rfl

/-- C9: `calculate_spreads` mutates no attribute of the strategy object — the
threaded state comes back unchanged — and on the error path with the
class-configured defaults it returns exactly `(0.001, 0.001)`. -/
theorem calculate_spreads_frame (s : Strategy) (h : Host) :
    (calculate_spreads_full s h).1 = s ∧
    (∀ e, calculate_spreads_run defaultStrategy h = Except.error e →
      calculate_spreads defaultStrategy h = (1/1000, 1/1000)) := by
  refine ⟨rfl, fun e he => ?_⟩
  unfold calculate_spreads calculate_spreads_full
  rw [he]
  rfl

/-- Witness for C9 on the host where every call raises. -/
theorem calculate_spreads_frame_witness :
    (calculate_spreads_full defaultStrategy failHost).1 = defaultStrategy ∧
    calculate_spreads defaultStrategy failHost = (1/1000, 1/1000) :=
  ⟨(calculate_spreads_frame defaultStrategy failHost).1,
   (calculate_spreads_frame defaultStrategy failHost).2 Err.exn rfl⟩

/-- On a closed gate (current time strictly before `create_timestamp`),
`on_tick` emits no action and leaves the state unchanged. -/
lemma on_tick_gate_closed (s : Strategy) (h : Host) (now : ℤ)
    (hlt : now < s.create_timestamp) :
    on_tick s h now = Except.ok (s, []) := by
  unfold on_tick
  rw [if_neg (not_le.mpr hlt)]

/-- C10: `on_tick` runs the cancel/recompute/place cycle only when
`create_timestamp ≤ current_timestamp`; every completed cycle sets
`create_timestamp` to `order_refresh_time + current_timestamp`; and no cycle
(hence no cancel or place) happens at any time strictly before the stored
`create_timestamp`. -/
theorem on_tick_refresh_schedule (s : Strategy) (h : Host) (now : ℤ) :
    (now < s.create_timestamp → on_tick s h now = Except.ok (s, [])) ∧
    (∀ s2 acts, on_tick s h now = Except.ok (s2, acts) → acts ≠ [] →
      s.create_timestamp ≤ now ∧
      s2.create_timestamp = s.order_refresh_time + now) ∧
    (∀ s2 acts (h2 : Host) (t2 : ℤ), on_tick s h now = Except.ok (s2, acts) →
      t2 < s2.create_timestamp → on_tick s2 h2 t2 = Except.ok (s2, [])) := by
  refine ⟨fun hlt => on_tick_gate_closed s h now hlt, ?_, ?_⟩
  · intro s2 acts hok hne
    unfold on_tick at hok
    by_cases hgate : s.create_timestamp ≤ now
    · rw [if_pos hgate] at hok
      refine ⟨hgate, ?_⟩
      cases hcp : create_proposal s h with
      | error e => rw [hcp] at hok; exact absurd hok (by simp [Except.bind])
      | ok prop =>
        rw [hcp] at hok
        simp only [Except.bind, Except.ok.injEq, Prod.mk.injEq] at hok
        rw [← hok.1]
    · rw [if_neg hgate] at hok
      simp only [Except.ok.injEq, Prod.mk.injEq] at hok
      exact absurd hok.2.symm hne
  · intro s2 acts h2 t2 hok hlt2
    exact on_tick_gate_closed s2 h2 t2 hlt2

/-- Witness for C10: with the gate closed nothing happens, and the quiescence
consequence applied at an even earlier time. -/
theorem on_tick_refresh_schedule_witness :
    on_tick defaultStrategy failHost (-1) = Except.ok (defaultStrategy, []) ∧
    on_tick defaultStrategy failHost (-5) = Except.ok (defaultStrategy, []) :=
  ⟨(on_tick_refresh_schedule defaultStrategy failHost (-1)).1 (by norm_num [defaultStrategy]),
   (on_tick_refresh_schedule defaultStrategy failHost (-1)).2.2 defaultStrategy [] failHost (-5)
     ((on_tick_refresh_schedule defaultStrategy failHost (-1)).1 (by norm_num [defaultStrategy]))
     (by norm_num [defaultStrategy])⟩

end AdaptiveMM
